import Mathlib

/-!
Verification of the Book-Management CRUD service.

The data-access layer (`server/database.js`) is embedded as pure state-passing
functions over an explicit `DB` state; the five Express route handlers
(`server/routes/books.js`) are embedded both parametrically in the store
outcome (to reason about arbitrary store failures reaching the `catch`
blocks) and composed with the deterministic store model.
-/

namespace BookApi

/-- A row of the `books` table as created by the schema in `server/database.js`:
`id INTEGER PRIMARY KEY AUTOINCREMENT`, `title`/`author` `TEXT NOT NULL`,
`isbn TEXT UNIQUE`, optional `published_year`/`genre`/`description`, and the
two `DATETIME` columns. Timestamps are modelled as natural numbers. -/
structure Book where
  id : Nat
  title : String
  author : String
  isbn : Option String
  published_year : Option Int
  genre : Option String
  description : Option String
  created_at : Nat
  updated_at : Nat
deriving Repr, DecidableEq

/-- The six business fields handed to `createBook`/`updateBook` by the routes. -/
structure BookData where
  title : String
  author : String
  isbn : Option String
  published_year : Option Int
  genre : Option String
  description : Option String
deriving Repr, DecidableEq

/-- Store state: the rows of the `books` table plus the AUTOINCREMENT counter
(`nextId` is the id the next successful INSERT will receive; AUTOINCREMENT
never reuses ids, so deletion leaves the counter untouched). -/
structure DB where
  rows : List Book
  nextId : Nat
deriving Repr, DecidableEq

/-- Decimal reading of a run of digit characters, `none` on the first
non-digit. -/
def digitsToNat (acc : Nat) : List Char → Option Nat
  | [] => some acc
  | c :: cs =>
      if 48 ≤ c.toNat ∧ c.toNat ≤ 57 then digitsToNat (acc * 10 + (c.toNat - 48)) cs
      else none

/-- The numeric reading SQLite's integer affinity gives a text parameter: a
non-empty all-digit string denotes that number (leading zeros allowed), any
other text converts to no stored `id` at all. -/
def strToNat? (s : String) : Option Nat :=
  match s.toList with
  | [] => none
  | c :: cs => digitsToNat 0 (c :: cs)

/-- SQLite integer-affinity comparison `id = ?` where `?` is bound to the
string taken from the route path: the text is converted to an integer when it
is a well-formed number, and matches no INTEGER `id` otherwise. -/
def idMatches (s : String) (b : Book) : Bool :=
  strToNat? s == some b.id

/-- The error message sqlite3 raises on an `isbn` uniqueness violation; the
routes classify conflicts by searching it for `UNIQUE constraint failed`. -/
def uniqueErrMsg : String :=
  "SQLITE_CONSTRAINT: UNIQUE constraint failed: books.isbn"

/-- `dbOperations.getAllBooks`: `SELECT * FROM books ORDER BY created_at DESC`.
Newest first; the store breaks ties arbitrarily, modelled by a stable
insertion sort on the descending order. -/
def newerFirst (a b : Book) : Prop :=
  b.created_at ≤ a.created_at

instance : DecidableRel newerFirst := fun a b =>
  inferInstanceAs (Decidable (b.created_at ≤ a.created_at))

instance : IsTotal Book newerFirst :=
  ⟨fun a b => Nat.le_total b.created_at a.created_at⟩

instance : IsTrans Book newerFirst :=
  ⟨fun _ _ _ h1 h2 => Nat.le_trans h2 h1⟩

def getAllBooks (db : DB) : List Book :=
  db.rows.insertionSort newerFirst

/-- `dbOperations.getBookById`: `SELECT * FROM books WHERE id = ?`; `db.get`
resolves the first matching row, or `undefined` (here `none`). -/
def getBookById (s : String) (db : DB) : Option Book :=
  db.rows.find? (idMatches s)

/-- `dbOperations.createBook`: INSERT of the six business fields; the store
assigns `id = nextId` and both timestamps, rejecting with the UNIQUE error
when a non-NULL `isbn` duplicates an existing row (multiple NULL isbns are
allowed by SQLite). On success the row is re-read by `this.lastID` and that
re-read (an `Option`) is what resolves. -/
def createBook (d : BookData) (now : Nat) (db : DB) : Except String (Option Book × DB) :=
  let conflict :=
    match d.isbn with
    | none => false
    | some i => db.rows.any (fun b => b.isbn == some i)
  if conflict then
    .error uniqueErrMsg
  else
    let newBook : Book :=
      ⟨db.nextId, d.title, d.author, d.isbn, d.published_year, d.genre, d.description, now, now⟩
    let rows' := db.rows ++ [newBook]
    .ok (rows'.find? (fun b => b.id == db.nextId), ⟨rows', db.nextId + 1⟩)

/-- The update applied to a matched row by `dbOperations.updateBook`:
`SET title = ?, author = ?, isbn = ?, published_year = ?, genre = ?,
description = ?, updated_at = CURRENT_TIMESTAMP`. -/
def applyUpdate (d : BookData) (now : Nat) (b : Book) : Book :=
  { b with
    title := d.title, author := d.author, isbn := d.isbn,
    published_year := d.published_year, genre := d.genre,
    description := d.description, updated_at := now }

/-- `dbOperations.updateBook`: `UPDATE books SET ... WHERE id = ?`. If zero
rows match, `this.changes === 0` and `null` resolves with the state
untouched; if the new non-NULL `isbn` duplicates a row other than the matched
one the statement aborts with the UNIQUE error; otherwise the matched row is
overwritten and re-read by the same id. -/
def updateBook (s : String) (d : BookData) (now : Nat) (db : DB) :
    Except String (Option Book × DB) :=
  if db.rows.all (fun b => !(idMatches s b)) then
    .ok (none, db)
  else
    let conflict :=
      match d.isbn with
      | none => false
      | some i => db.rows.any (fun b => !(idMatches s b) && b.isbn == some i)
    if conflict then
      .error uniqueErrMsg
    else
      let rows' := db.rows.map (fun b => if idMatches s b then applyUpdate d now b else b)
      .ok (rows'.find? (idMatches s), ⟨rows', db.nextId⟩)

/-- `dbOperations.deleteBook`: first `SELECT` the row; if absent resolve
`null`; otherwise `DELETE FROM books WHERE id = ?` and resolve the
pre-deletion snapshot. -/
def deleteBook (s : String) (db : DB) : Except String (Option Book × DB) :=
  match db.rows.find? (idMatches s) with
  | none => .ok (none, db)
  | some book => .ok (some book, ⟨db.rows.filter (fun b => !(idMatches s b)), db.nextId⟩)

/-- All stored ids are below the AUTOINCREMENT counter; holds for every state
reachable from an empty table and is what makes the post-INSERT re-read find
the new row. -/
def Wellformed (db : DB) : Prop :=
  ∀ b ∈ db.rows, b.id < db.nextId

instance (db : DB) : Decidable (Wellformed db) :=
  inferInstanceAs (Decidable (∀ b ∈ db.rows, b.id < db.nextId))

/-! ### The route handlers (`server/routes/books.js`) -/

/-- Character-list version of `isPrefixOf` used by `chSub`. -/
def chPre : List Char → List Char → Bool
  | [], _ => true
  | _ :: _, [] => false
  | a :: as, b :: bs => a == b && chPre as bs

/-- Does the pattern occur as a contiguous run of the second list? -/
def chSub : List Char → List Char → Bool
  | pat, [] => pat.isEmpty
  | pat, c :: rest => chPre pat (c :: rest) || chSub pat rest

/-- JavaScript `s.includes(pat)`: substring containment. -/
def strIncludes (s pat : String) : Bool :=
  chSub pat.toList s.toList

/-- A JSON request body as the routes see it: the six business fields the
handlers destructure, plus client-supplied `id`/`created_at`/`updated_at`
fields that the destructuring never touches. `none` is an absent field. -/
structure Body where
  title : Option String := none
  author : Option String := none
  isbn : Option String := none
  published_year : Option Int := none
  genre : Option String := none
  description : Option String := none
  id : Option String := none
  created_at : Option String := none
  updated_at : Option String := none
deriving Repr, DecidableEq

/-- JavaScript falsiness of a destructured body field: an absent field
(`undefined`) and the empty string are falsy, so `!title || !author` fires. -/
def falsy : Option String → Bool
  | none => true
  | some s => s == ""

/-- The object literal the POST/PUT routes pass to the store: exactly the six
destructured business fields. After validation `title`/`author` are truthy
strings; `getD ""` is their extraction. -/
def bodyFields (b : Body) : BookData :=
  ⟨b.title.getD "", b.author.getD "", b.isbn, b.published_year, b.genre, b.description⟩

/-- The JSON envelope plus HTTP status a handler sends. -/
inductive RespData where
  | book : Book → RespData
  | books : List Book → RespData
  | deletedBook : Book → RespData
deriving Repr, DecidableEq

structure Response where
  status : Nat
  success : Bool
  message : Option String := none
  data : Option RespData := none
  error : Option String := none
  total : Option Nat := none
deriving Repr, DecidableEq

/-- 400 response of the POST/PUT validation check. -/
def validationResp : Response :=
  { status := 400, success := false, message := some "Title and author are required" }

/-- 400 response of the `UNIQUE constraint failed` branch of both catch blocks. -/
def isbnConflictResp : Response :=
  { status := 400, success := false, message := some "ISBN already exists" }

/-- 404 response shared by GET-by-id, PUT and DELETE. -/
def notFoundResp : Response :=
  { status := 404, success := false, message := some "Book not found" }

/-- 201 response of POST; `data` mirrors the (possibly `undefined`) re-read row. -/
def createdResp (row : Option Book) : Response :=
  { status := 201, success := true, message := some "Book created successfully",
    data := row.map .book }

/-- 200 response of PUT. -/
def updatedResp (b : Book) : Response :=
  { status := 200, success := true, message := some "Book updated successfully",
    data := some (.book b) }

/-- 200 response of DELETE; the removed record is wrapped as `data.deletedBook`. -/
def deletedResp (b : Book) : Response :=
  { status := 200, success := true, message := some "Book deleted successfully",
    data := some (.deletedBook b) }

/-- The POST catch block: classify by substring of the error message. -/
def postCatch (e : String) : Response :=
  if strIncludes e "UNIQUE constraint failed" then isbnConflictResp
  else { status := 500, success := false, message := some "Error creating book", error := some e }

/-- The PUT catch block. -/
def putCatch (e : String) : Response :=
  if strIncludes e "UNIQUE constraint failed" then isbnConflictResp
  else { status := 500, success := false, message := some "Error updating book", error := some e }

/-- `GET /api/books`, parametric in the awaited store outcome. -/
def getAllHandler (r : Except String (List Book)) : Response :=
  match r with
  | .ok books =>
      { status := 200, success := true, data := some (.books books), total := some books.length }
  | .error e =>
      { status := 500, success := false, message := some "Error retrieving books", error := some e }

/-- `GET /api/books/:id`, parametric in the awaited store outcome. -/
def getByIdHandler (r : Except String (Option Book)) : Response :=
  match r with
  | .ok none => notFoundResp
  | .ok (some b) => { status := 200, success := true, data := some (.book b) }
  | .error e =>
      { status := 500, success := false, message := some "Error retrieving book", error := some e }

/-- `POST /api/books`, parametric in the awaited store outcome (consulted only
after validation passes). -/
def postHandler (body : Body) (r : Except String (Option Book)) : Response :=
  if falsy body.title || falsy body.author then validationResp
  else
    match r with
    | .ok row => createdResp row
    | .error e => postCatch e

/-- `PUT /api/books/:id`, parametric in the awaited store outcome. -/
def putHandler (body : Body) (r : Except String (Option Book)) : Response :=
  if falsy body.title || falsy body.author then validationResp
  else
    match r with
    | .ok none => notFoundResp
    | .ok (some b) => updatedResp b
    | .error e => putCatch e

/-- `DELETE /api/books/:id`, parametric in the awaited store outcome. -/
def deleteHandler (r : Except String (Option Book)) : Response :=
  match r with
  | .ok none => notFoundResp
  | .ok (some b) => deletedResp b
  | .error e =>
      { status := 500, success := false, message := some "Error deleting book", error := some e }

/-! ### Routes composed with the deterministic store model -/

def getAllEndpoint (db : DB) : Response × DB :=
  (getAllHandler (.ok (getAllBooks db)), db)

def getByIdEndpoint (s : String) (db : DB) : Response × DB :=
  (getByIdHandler (.ok (getBookById s db)), db)

def postEndpoint (body : Body) (now : Nat) (db : DB) : Response × DB :=
  if falsy body.title || falsy body.author then (validationResp, db)
  else
    match createBook (bodyFields body) now db with
    | .ok (row, db') => (createdResp row, db')
    | .error e => (postCatch e, db)

def putEndpoint (s : String) (body : Body) (now : Nat) (db : DB) : Response × DB :=
  if falsy body.title || falsy body.author then (validationResp, db)
  else
    match updateBook s (bodyFields body) now db with
    | .ok (none, db') => (notFoundResp, db')
    | .ok (some b, db') => (updatedResp b, db')
    | .error e => (putCatch e, db)

def deleteEndpoint (s : String) (db : DB) : Response × DB :=
  match deleteBook s db with
  | .ok (none, db') => (notFoundResp, db')
  | .ok (some b, db') => (deletedResp b, db')
  | .error e =>
      ({ status := 500, success := false, message := some "Error deleting book", error := some e }, db)

/-! ### Helper lemmas -/

theorem find?_append_of_none {α} (p : α → Bool) (l1 l2 : List α)
    (h : ∀ x ∈ l1, p x = false) : (l1 ++ l2).find? p = l2.find? p := by
  induction l1 with
  | nil => rfl
  | cons a as ih =>
    have ha : p a = false := h a (List.mem_cons_self a as)
    simp only [List.cons_append, List.find?_cons, ha]
    exact ih fun x hx => h x (List.mem_cons_of_mem a hx)

/-- The shape of a successful INSERT: on a well-formed state the re-read
always finds the freshly inserted row, and the new state appends it. -/
theorem createBook_success_shape (d : BookData) (now : Nat) (db : DB)
    (row : Option Book) (db' : DB) (hwf : Wellformed db)
    (h : createBook d now db = .ok (row, db')) :
    row = some ⟨db.nextId, d.title, d.author, d.isbn, d.published_year,
                d.genre, d.description, now, now⟩ ∧
    db' = ⟨db.rows ++ [⟨db.nextId, d.title, d.author, d.isbn, d.published_year,
                        d.genre, d.description, now, now⟩], db.nextId + 1⟩ := by
  unfold createBook at h
  set nb : Book := ⟨db.nextId, d.title, d.author, d.isbn, d.published_year,
                    d.genre, d.description, now, now⟩ with hnb
  by_cases hc : (match d.isbn with
    | none => false
    | some i => db.rows.any (fun b => b.isbn == some i)) = true
  · simp only [hc, if_true] at h
    cases h
  · simp only [hc, if_false, Bool.not_eq_true] at h
    rw [Bool.not_eq_true] at hc
    simp only [hc, Bool.false_eq_true, if_false, Except.ok.injEq, Prod.mk.injEq] at h
    have hfind : (db.rows ++ [nb]).find? (fun b => b.id == db.nextId) = some nb := by
      rw [find?_append_of_none]
      · simp [List.find?_cons]
      · intro x hx
        have := hwf x hx
        simp only [beq_eq_false_iff_ne, ne_eq]
        omega
    rw [hfind] at h
    exact ⟨h.1.symm, h.2.symm⟩

/-! ### Claims -/

/-- C1: for every create or update request that passes validation, a store
failure whose message contains the substring `UNIQUE constraint failed` is
answered 400 with `{success:false, message:"ISBN already exists"}`, and any
other store failure is answered 500 with the generic message and the raw
error text attached. -/
theorem conflict_classification (body : Body) (e : String)
    (ht : falsy body.title = false) (ha : falsy body.author = false) :
    (strIncludes e "UNIQUE constraint failed" = true →
      postHandler body (.error e) =
        { status := 400, success := false, message := some "ISBN already exists" } ∧
      putHandler body (.error e) =
        { status := 400, success := false, message := some "ISBN already exists" }) ∧
    (strIncludes e "UNIQUE constraint failed" = false →
      postHandler body (.error e) =
        { status := 500, success := false, message := some "Error creating book",
          error := some e } ∧
      putHandler body (.error e) =
        { status := 500, success := false, message := some "Error updating book",
          error := some e }) := by
  constructor <;> intro h <;>
    simp [postHandler, putHandler, ht, ha, postCatch, putCatch, h, isbnConflictResp]

theorem conflict_classification_witness :
    postHandler { title := some "T", author := some "A" } (.error uniqueErrMsg) =
      { status := 400, success := false, message := some "ISBN already exists" } ∧
    putHandler { title := some "T", author := some "A" } (.error "disk I/O error") =
      { status := 500, success := false, message := some "Error updating book",
        error := some "disk I/O error" } :=
  ⟨((conflict_classification { title := some "T", author := some "A" } uniqueErrMsg
      rfl rfl).1 (by decide)).1,
   ((conflict_classification { title := some "T", author := some "A" } "disk I/O error"
      rfl rfl).2 (by decide)).2⟩

/-- C2: a create or update body with missing or empty `title` or `author` is
answered 400 `"Title and author are required"` regardless of any store
outcome (so the store is never consulted), and the composed endpoints leave
the stored state unchanged. -/
theorem missing_title_author_rejected (body : Body)
    (h : falsy body.title = true ∨ falsy body.author = true) :
    (∀ r, postHandler body r =
      { status := 400, success := false, message := some "Title and author are required" }) ∧
    (∀ r, putHandler body r =
      { status := 400, success := false, message := some "Title and author are required" }) ∧
    (∀ now db, postEndpoint body now db =
      ({ status := 400, success := false, message := some "Title and author are required" }, db)) ∧
    (∀ s now db, putEndpoint s body now db =
      ({ status := 400, success := false, message := some "Title and author are required" }, db)) := by
  have hcond : (falsy body.title || falsy body.author) = true := by
    rcases h with h | h <;> simp [h]
  refine ⟨fun r => ?_, fun r => ?_, fun now db => ?_, fun s now db => ?_⟩ <;>
    simp [postHandler, putHandler, postEndpoint, putEndpoint, hcond, validationResp]

theorem missing_title_author_rejected_witness :
    postHandler { author := some "A" } (.ok none) =
      { status := 400, success := false, message := some "Title and author are required" } ∧
    putEndpoint "1" { title := some "T", author := some "" } 5 ⟨[], 1⟩ =
      ({ status := 400, success := false, message := some "Title and author are required" },
       ⟨[], 1⟩) :=
  ⟨(missing_title_author_rejected { author := some "A" } (Or.inl rfl)).1 (.ok none),
   (missing_title_author_rejected { title := some "T", author := some "" }
      (Or.inr rfl)).2.2.2 "1" 5 ⟨[], 1⟩⟩

/-- C7: in each of the five handlers, a failure surfaced by the data-access
layer is converted into a JSON error response with status 400 or 500 and
`success:false`; no store failure escapes a handler. -/
theorem store_failure_contained (e : String) (body : Body) :
    ((getAllHandler (.error e)).status = 500 ∧ (getAllHandler (.error e)).success = false) ∧
    ((getByIdHandler (.error e)).status = 500 ∧ (getByIdHandler (.error e)).success = false) ∧
    (((postHandler body (.error e)).status = 400 ∨ (postHandler body (.error e)).status = 500) ∧
      (postHandler body (.error e)).success = false) ∧
    (((putHandler body (.error e)).status = 400 ∨ (putHandler body (.error e)).status = 500) ∧
      (putHandler body (.error e)).success = false) ∧
    ((deleteHandler (.error e)).status = 500 ∧ (deleteHandler (.error e)).success = false) := by
  refine ⟨⟨rfl, rfl⟩, ⟨rfl, rfl⟩, ?_, ?_, ⟨rfl, rfl⟩⟩ <;>
  · by_cases hv : (falsy body.title || falsy body.author) = true
    · simp [postHandler, putHandler, hv, validationResp]
    · by_cases hc : strIncludes e "UNIQUE constraint failed" = true <;>
        simp [postHandler, putHandler, hv, postCatch, putCatch, hc, isbnConflictResp]

/-- C9: a get-by-id request whose path id matches no stored row (in
particular any id never created, and any non-numeric path value) is answered
with the explicit not-found result: 404, `"Book not found"` — never a 500. -/
theorem getById_never_created (s : String) (db : DB)
    (h : ∀ b ∈ db.rows, idMatches s b = false) :
    getBookById s db = none ∧
    getByIdEndpoint s db =
      ({ status := 404, success := false, message := some "Book not found" }, db) := by
  have hfind : db.rows.find? (idMatches s) = none := by
    rw [List.find?_eq_none]
    intro b hb
    simp [h b hb]
  refine ⟨hfind, ?_⟩
  simp [getByIdEndpoint, getByIdHandler, getBookById, hfind, notFoundResp]

theorem getById_never_created_witness :
    getBookById "abc"
        ⟨[⟨1, "1984", "George Orwell", some "978-0-452-28423-4", some 1949,
           some "Fiction", none, 5, 5⟩], 2⟩ = none ∧
    getByIdEndpoint "abc"
        ⟨[⟨1, "1984", "George Orwell", some "978-0-452-28423-4", some 1949,
           some "Fiction", none, 5, 5⟩], 2⟩ =
      ({ status := 404, success := false, message := some "Book not found" },
       ⟨[⟨1, "1984", "George Orwell", some "978-0-452-28423-4", some 1949,
          some "Fiction", none, 5, 5⟩], 2⟩) :=
  getById_never_created "abc" _ (by decide)

/-- C3: deleting an existing id returns the exact pre-deletion snapshot of
the row (surfaced as `data.deletedBook` in the 200 response) and a subsequent
get-by-id on that id returns not-found; deleting an absent id returns
not-found (404) and deletes nothing. -/
theorem delete_returns_snapshot (s : String) (db : DB) :
    (∀ bk, getBookById s db = some bk →
      ∃ db', deleteBook s db = .ok (some bk, db') ∧
        getBookById s db' = none ∧
        db'.rows = db.rows.filter (fun b => !(idMatches s b)) ∧
        deleteEndpoint s db =
          ({ status := 200, success := true, message := some "Book deleted successfully",
             data := some (.deletedBook bk) }, db')) ∧
    (getBookById s db = none →
      deleteBook s db = .ok (none, db) ∧
      deleteEndpoint s db =
        ({ status := 404, success := false, message := some "Book not found" }, db)) := by
  constructor
  · intro bk hbk
    have hdel : deleteBook s db =
        .ok (some bk, ⟨db.rows.filter (fun b => !(idMatches s b)), db.nextId⟩) := by
      unfold deleteBook
      rw [show db.rows.find? (idMatches s) = some bk from hbk]
    refine ⟨_, hdel, ?_, rfl, ?_⟩
    · show (db.rows.filter fun b => !(idMatches s b)).find? (idMatches s) = none
      rw [List.find?_eq_none]
      intro b hb
      have hfb := (List.mem_filter.mp hb).2
      simp only [Bool.not_eq_true'] at hfb
      simp [hfb]
    · simp [deleteEndpoint, hdel, deletedResp]
  · intro hnone
    have hdel : deleteBook s db = .ok (none, db) := by
      unfold deleteBook
      rw [show db.rows.find? (idMatches s) = none from hnone]
    exact ⟨hdel, by simp [deleteEndpoint, hdel, notFoundResp]⟩

theorem delete_returns_snapshot_witness :
    (∃ db', deleteBook "1" ⟨[⟨1, "A", "a", none, none, none, none, 3, 3⟩], 2⟩ =
        .ok (some ⟨1, "A", "a", none, none, none, none, 3, 3⟩, db') ∧
      getBookById "1" db' = none ∧
      db'.rows = List.filter (fun b => !(idMatches "1" b))
        [⟨1, "A", "a", none, none, none, none, 3, 3⟩] ∧
      deleteEndpoint "1" ⟨[⟨1, "A", "a", none, none, none, none, 3, 3⟩], 2⟩ =
        ({ status := 200, success := true, message := some "Book deleted successfully",
           data := some (.deletedBook ⟨1, "A", "a", none, none, none, none, 3, 3⟩) }, db')) ∧
    (deleteBook "7" ⟨[⟨1, "A", "a", none, none, none, none, 3, 3⟩], 2⟩ =
        .ok (none, ⟨[⟨1, "A", "a", none, none, none, none, 3, 3⟩], 2⟩) ∧
      deleteEndpoint "7" ⟨[⟨1, "A", "a", none, none, none, none, 3, 3⟩], 2⟩ =
        ({ status := 404, success := false, message := some "Book not found" },
         ⟨[⟨1, "A", "a", none, none, none, none, 3, 3⟩], 2⟩)) :=
  ⟨(delete_returns_snapshot "1" ⟨[⟨1, "A", "a", none, none, none, none, 3, 3⟩], 2⟩).1
      ⟨1, "A", "a", none, none, none, none, 3, 3⟩ (by decide),
   (delete_returns_snapshot "7" ⟨[⟨1, "A", "a", none, none, none, none, 3, 3⟩], 2⟩).2
      (by decide)⟩

/-- C4: a successful update of an existing row overwrites exactly the six
business fields of that row with the supplied values and refreshes
`updated_at`, leaves the row's `id` and `created_at` unchanged, and leaves
every other row (and the id counter) unchanged. -/
theorem update_exact_frame (s : String) (d : BookData) (now : Nat) (db : DB)
    (b' : Book) (db' : DB)
    (h : updateBook s d now db = .ok (some b', db')) :
    db'.nextId = db.nextId ∧
    db'.rows.length = db.rows.length ∧
    (∀ i (hi : i < db.rows.length) (hi' : i < db'.rows.length),
      (idMatches s db.rows[i] = false → db'.rows[i] = db.rows[i]) ∧
      (idMatches s db.rows[i] = true →
        (db'.rows[i]).id = (db.rows[i]).id ∧
        (db'.rows[i]).created_at = (db.rows[i]).created_at ∧
        (db'.rows[i]).title = d.title ∧
        (db'.rows[i]).author = d.author ∧
        (db'.rows[i]).isbn = d.isbn ∧
        (db'.rows[i]).published_year = d.published_year ∧
        (db'.rows[i]).genre = d.genre ∧
        (db'.rows[i]).description = d.description ∧
        (db'.rows[i]).updated_at = now)) := by
  unfold updateBook at h
  by_cases hall : db.rows.all (fun b => !(idMatches s b)) = true
  · simp [hall] at h
  · simp only [hall, Bool.false_eq_true, if_false] at h
    rcases hisbn : d.isbn with _ | i <;> simp only [hisbn] at h
    · simp only [Bool.false_eq_true, if_false, Except.ok.injEq, Prod.mk.injEq] at h
      obtain ⟨-, hdb⟩ := h
      subst hdb
      refine ⟨rfl, by simp, fun i hi hi' => ?_⟩
      constructor <;> intro hm <;> simp [hm, applyUpdate, hisbn]
    · by_cases hc : db.rows.any (fun b => !(idMatches s b) && b.isbn == some i) = true
      · simp [hc] at h
      · simp only [hc, Bool.false_eq_true, if_false, Except.ok.injEq, Prod.mk.injEq] at h
        obtain ⟨-, hdb⟩ := h
        subst hdb
        refine ⟨rfl, by simp, fun j hj hj' => ?_⟩
        constructor <;> intro hm <;> simp [hm, applyUpdate, hisbn]

theorem update_exact_frame_witness :
    ∃ b' db',
      updateBook "2" ⟨"NT", "NA", some "ni", some 2001, some "ng", some "nd"⟩ 9
          ⟨[⟨1, "A", "a", none, none, none, none, 3, 3⟩,
            ⟨2, "B", "b", some "i2", some 1990, some "g", some "d", 4, 4⟩], 3⟩ =
        .ok (some b', db') ∧
      db'.nextId = 3 ∧ db'.rows.length = 2 ∧
      db'.rows[0]? = some ⟨1, "A", "a", none, none, none, none, 3, 3⟩ ∧
      db'.rows[1]? = some ⟨2, "NT", "NA", some "ni", some 2001, some "ng", some "nd", 4, 9⟩ := by
  refine ⟨⟨2, "NT", "NA", some "ni", some 2001, some "ng", some "nd", 4, 9⟩,
          ⟨[⟨1, "A", "a", none, none, none, none, 3, 3⟩,
            ⟨2, "NT", "NA", some "ni", some 2001, some "ng", some "nd", 4, 9⟩], 3⟩,
          rfl, ?_, ?_, by decide, by decide⟩
  · exact (update_exact_frame "2" ⟨"NT", "NA", some "ni", some 2001, some "ng", some "nd"⟩ 9
      ⟨[⟨1, "A", "a", none, none, none, none, 3, 3⟩,
        ⟨2, "B", "b", some "i2", some 1990, some "g", some "d", 4, 4⟩], 3⟩
      ⟨2, "NT", "NA", some "ni", some 2001, some "ng", some "nd", 4, 9⟩
      ⟨[⟨1, "A", "a", none, none, none, none, 3, 3⟩,
        ⟨2, "NT", "NA", some "ni", some 2001, some "ng", some "nd", 4, 9⟩], 3⟩
      rfl).1
  · exact (update_exact_frame "2" ⟨"NT", "NA", some "ni", some 2001, some "ng", some "nd"⟩ 9
      ⟨[⟨1, "A", "a", none, none, none, none, 3, 3⟩,
        ⟨2, "B", "b", some "i2", some 1990, some "g", some "d", 4, 4⟩], 3⟩
      ⟨2, "NT", "NA", some "ni", some 2001, some "ng", some "nd", 4, 9⟩
      ⟨[⟨1, "A", "a", none, none, none, none, 3, 3⟩,
        ⟨2, "NT", "NA", some "ni", some 2001, some "ng", some "nd", 4, 9⟩], 3⟩
      rfl).2.1

/-- C6: updating an id that matches no stored row returns the explicit
not-found result with the state completely unchanged, and the PUT endpoint
(with valid title/author) surfaces it as 404 `"Book not found"`. -/
theorem update_absent_id (s : String) (now : Nat) (db : DB)
    (h : ∀ b ∈ db.rows, idMatches s b = false) :
    (∀ d, updateBook s d now db = .ok (none, db)) ∧
    (∀ body, falsy body.title = false → falsy body.author = false →
      putEndpoint s body now db =
        ({ status := 404, success := false, message := some "Book not found" }, db)) := by
  have hall : db.rows.all (fun b => !(idMatches s b)) = true := by
    rw [List.all_eq_true]
    intro b hb
    simp [h b hb]
  have key : ∀ d, updateBook s d now db = .ok (none, db) := by
    intro d
    unfold updateBook
    simp [hall]
  refine ⟨key, fun body ht ha => ?_⟩
  simp [putEndpoint, ht, ha, key, notFoundResp]

/-- C8: after a successful create of a valid input X on a well-formed state,
getting the generated id back returns a record whose six business fields are
X's (absent optional fields as null), with the generated id and the two
timestamps; in particular the created record round-trips through getById. -/
theorem create_roundtrip (X : BookData) (now : Nat) (db : DB) (s : String)
    (row : Option Book) (db' : DB)
    (hwf : Wellformed db)
    (_ht : X.title ≠ "") (_ha : X.author ≠ "")
    (hs : strToNat? s = some db.nextId)
    (hsucc : createBook X now db = .ok (row, db')) :
    ∃ nb, row = some nb ∧
      nb.id = db.nextId ∧ nb.title = X.title ∧ nb.author = X.author ∧
      nb.isbn = X.isbn ∧ nb.published_year = X.published_year ∧
      nb.genre = X.genre ∧ nb.description = X.description ∧
      nb.created_at = now ∧ nb.updated_at = now ∧
      getBookById s db' = some nb := by
  obtain ⟨hrow, hdb⟩ := createBook_success_shape X now db row db' hwf hsucc
  subst hdb
  refine ⟨_, hrow, rfl, rfl, rfl, rfl, rfl, rfl, rfl, rfl, rfl, ?_⟩
  show (db.rows ++ [_]).find? (idMatches s) = _
  rw [find?_append_of_none]
  · simp [List.find?_cons, idMatches, hs]
  · intro x hx
    have := hwf x hx
    simp only [idMatches, hs, beq_eq_false_iff_ne, ne_eq, Option.some.injEq]
    omega

theorem create_roundtrip_witness :
    ∃ nb,
      (some (⟨2, "T", "A", some "i", some 2000, none, none, 7, 7⟩ : Book)) = some nb ∧
      nb.id = 2 ∧ nb.title = "T" ∧ nb.author = "A" ∧
      nb.isbn = some "i" ∧ nb.published_year = some 2000 ∧
      nb.genre = none ∧ nb.description = none ∧
      nb.created_at = 7 ∧ nb.updated_at = 7 ∧
      getBookById "2" ⟨[⟨1, "1984", "George Orwell", none, none, none, none, 3, 3⟩,
                        ⟨2, "T", "A", some "i", some 2000, none, none, 7, 7⟩], 3⟩ =
        some nb :=
  create_roundtrip ⟨"T", "A", some "i", some 2000, none, none⟩ 7
    ⟨[⟨1, "1984", "George Orwell", none, none, none, none, 3, 3⟩], 2⟩ "2"
    (some ⟨2, "T", "A", some "i", some 2000, none, none, 7, 7⟩)
    ⟨[⟨1, "1984", "George Orwell", none, none, none, none, 3, 3⟩,
      ⟨2, "T", "A", some "i", some 2000, none, none, 7, 7⟩], 3⟩
    (by decide) (by decide) (by decide) (by decide) rfl

/-- C10: the create and update endpoints read only the six business fields of
the request body — two bodies agreeing on those six fields produce identical
outcomes — and a client-supplied id or timestamp can never set the created
row's generated `id`, `created_at` or `updated_at`. -/
theorem body_extras_ignored (body body2 : Body) (now : Nat) (db : DB)
    (h : body.title = body2.title ∧ body.author = body2.author ∧
         body.isbn = body2.isbn ∧ body.published_year = body2.published_year ∧
         body.genre = body2.genre ∧ body.description = body2.description) :
    postEndpoint body now db = postEndpoint body2 now db ∧
    (∀ s, putEndpoint s body now db = putEndpoint s body2 now db) ∧
    (Wellformed db → ∀ row db' nb,
      createBook (bodyFields body) now db = .ok (row, db') → row = some nb →
      nb.id = db.nextId ∧ nb.created_at = now ∧ nb.updated_at = now) := by
  obtain ⟨h1, h2, h3, h4, h5, h6⟩ := h
  have hfields : bodyFields body = bodyFields body2 := by
    simp [bodyFields, h1, h2, h3, h4, h5, h6]
  refine ⟨?_, fun s => ?_, fun hwf row db' nb hcr hrow => ?_⟩
  · simp only [postEndpoint, h1, h2, hfields]
  · simp only [putEndpoint, h1, h2, hfields]
  · obtain ⟨hrow', -⟩ :=
      createBook_success_shape (bodyFields body) now db row db' hwf hcr
    rw [hrow'] at hrow
    cases hrow
    exact ⟨rfl, rfl, rfl⟩

theorem body_extras_ignored_witness :
    postEndpoint { title := some "T", author := some "A" } 7 ⟨[], 1⟩ =
      postEndpoint { title := some "T", author := some "A", id := some "99",
                     created_at := some "1900-01-01", updated_at := some "1900-01-01" }
        7 ⟨[], 1⟩ ∧
    (⟨1, "T", "A", none, none, none, none, 7, 7⟩ : Book).id = 1 ∧
    (⟨1, "T", "A", none, none, none, none, 7, 7⟩ : Book).created_at = 7 ∧
    (⟨1, "T", "A", none, none, none, none, 7, 7⟩ : Book).updated_at = 7 :=
  ⟨(body_extras_ignored { title := some "T", author := some "A" }
      { title := some "T", author := some "A", id := some "99",
        created_at := some "1900-01-01", updated_at := some "1900-01-01" }
      7 ⟨[], 1⟩ ⟨rfl, rfl, rfl, rfl, rfl, rfl⟩).1,
   (body_extras_ignored { title := some "T", author := some "A" }
      { title := some "T", author := some "A", id := some "99",
        created_at := some "1900-01-01", updated_at := some "1900-01-01" }
      7 ⟨[], 1⟩ ⟨rfl, rfl, rfl, rfl, rfl, rfl⟩).2.2 (by decide)
      (some ⟨1, "T", "A", none, none, none, none, 7, 7⟩)
      ⟨[⟨1, "T", "A", none, none, none, none, 7, 7⟩], 2⟩
      ⟨1, "T", "A", none, none, none, none, 7, 7⟩ rfl rfl⟩

theorem update_absent_id_witness :
    updateBook "9" ⟨"NT", "NA", none, none, none, none⟩ 9
        ⟨[⟨1, "A", "a", none, none, none, none, 3, 3⟩], 2⟩ =
      .ok (none, ⟨[⟨1, "A", "a", none, none, none, none, 3, 3⟩], 2⟩) ∧
    putEndpoint "9" { title := some "NT", author := some "NA" } 9
        ⟨[⟨1, "A", "a", none, none, none, none, 3, 3⟩], 2⟩ =
      ({ status := 404, success := false, message := some "Book not found" },
       ⟨[⟨1, "A", "a", none, none, none, none, 3, 3⟩], 2⟩) :=
  ⟨(update_absent_id "9" 9 ⟨[⟨1, "A", "a", none, none, none, none, 3, 3⟩], 2⟩
      (by decide)).1 ⟨"NT", "NA", none, none, none, none⟩,
   (update_absent_id "9" 9 ⟨[⟨1, "A", "a", none, none, none, none, 3, 3⟩], 2⟩
      (by decide)).2 { title := some "NT", author := some "NA" } rfl rfl⟩

/-- In a list sorted newest-first, an element strictly newer than every other
element is the head. -/
theorem sorted_strict_max_head (l : List Book) (x : Book)
    (hs : l.Sorted newerFirst) (hx : x ∈ l)
    (hmax : ∀ y ∈ l, y ≠ x → y.created_at < x.created_at) :
    ∃ t, l = x :: t := by
  cases l with
  | nil => cases hx
  | cons a t =>
    by_cases hax : a = x
    · exact ⟨t, by rw [hax]⟩
    · exfalso
      have hxt : x ∈ t := by
        rcases List.mem_cons.mp hx with h | h
        · exact absurd h.symm hax
        · exact h
      have h1 : newerFirst a x := (List.sorted_cons.mp hs).1 x hxt
      have h2 : a.created_at < x.created_at := hmax a (List.mem_cons_self a t) hax
      exact absurd h1 (by simp [newerFirst]; omega)

/-- C5: list() returns a permutation of the stored rows ordered newest first
by `created_at` (ties broken arbitrarily by the store), the empty sequence
exactly when no books exist; in particular after creating book A strictly
before book B (both newer than everything already stored), list() returns
`[B, A, ...]`. -/
theorem list_newest_first (db : DB) :
    (getAllBooks db).Perm db.rows ∧
    (getAllBooks db).Sorted newerFirst ∧
    (getAllBooks db = [] ↔ db.rows = []) ∧
    (∀ t1 t2 dA dB rowA db1 rowB db2,
      Wellformed db →
      (∀ b ∈ db.rows, b.created_at < t1) → t1 < t2 →
      createBook dA t1 db = .ok (rowA, db1) →
      createBook dB t2 db1 = .ok (rowB, db2) →
      ∃ a2 b2 rest, rowA = some a2 ∧ rowB = some b2 ∧
        getAllBooks db2 = b2 :: a2 :: rest) := by
  refine ⟨List.perm_insertionSort newerFirst db.rows,
          List.sorted_insertionSort newerFirst db.rows, ?_, ?_⟩
  · unfold getAllBooks
    constructor
    · intro h
      have hl := (List.perm_insertionSort newerFirst db.rows).length_eq
      rw [h] at hl
      exact List.length_eq_zero.mp hl.symm
    · intro h
      rw [h]
      rfl
  · intro t1 t2 dA dB rowA db1 rowB db2 hwf hlt hts hc1 hc2
    obtain ⟨hra, hdb1⟩ := createBook_success_shape dA t1 db rowA db1 hwf hc1
    subst hdb1
    have hwf1 : Wellformed (⟨db.rows ++ [⟨db.nextId, dA.title, dA.author, dA.isbn,
        dA.published_year, dA.genre, dA.description, t1, t1⟩], db.nextId + 1⟩ : DB) := by
      intro b hb
      rcases List.mem_append.mp hb with h | h
      · exact Nat.lt_succ_of_lt (hwf b h)
      · rw [List.mem_singleton.mp h]
        exact Nat.lt_succ_self _
    obtain ⟨hrb, hdb2⟩ := createBook_success_shape dB t2 _ rowB db2 hwf1 hc2
    subst hdb2
    set A : Book := ⟨db.nextId, dA.title, dA.author, dA.isbn,
        dA.published_year, dA.genre, dA.description, t1, t1⟩ with hA
    set B : Book := ⟨db.nextId + 1, dB.title, dB.author, dB.isbn,
        dB.published_year, dB.genre, dB.description, t2, t2⟩ with hB
    have hsort := List.sorted_insertionSort newerFirst ((db.rows ++ [A]) ++ [B])
    have hperm := List.perm_insertionSort newerFirst ((db.rows ++ [A]) ++ [B])
    have hmaxB : ∀ y ∈ List.insertionSort newerFirst ((db.rows ++ [A]) ++ [B]),
        y ≠ B → y.created_at < B.created_at := by
      intro y hy hne
      rcases List.mem_append.mp (hperm.subset hy) with h | h
      · rcases List.mem_append.mp h with h2 | h2
        · exact Nat.lt_trans (hlt y h2) hts
        · rw [List.mem_singleton.mp h2]
          exact hts
      · exact absurd (List.mem_singleton.mp h) hne
    have hBmem : B ∈ List.insertionSort newerFirst ((db.rows ++ [A]) ++ [B]) :=
      hperm.mem_iff.mpr (by simp)
    obtain ⟨t, ht⟩ := sorted_strict_max_head _ B hsort hBmem hmaxB
    have hpermt : t.Perm (db.rows ++ [A]) := by
      have h1 : (B :: t).Perm ((db.rows ++ [A]) ++ [B]) := ht ▸ hperm
      exact (h1.trans (List.perm_append_singleton _ _)).cons_inv
    have hsortt : t.Sorted newerFirst := by
      rw [ht] at hsort
      exact hsort.of_cons
    have hAmem : A ∈ t := hpermt.mem_iff.mpr (by simp)
    have hmaxA : ∀ y ∈ t, y ≠ A → y.created_at < A.created_at := by
      intro y hy hne
      rcases List.mem_append.mp (hpermt.subset hy) with h | h
      · exact hlt y h
      · exact absurd (List.mem_singleton.mp h) hne
    obtain ⟨rest, hrest⟩ := sorted_strict_max_head t A hsortt hAmem hmaxA
    refine ⟨A, B, rest, hra, hrb, ?_⟩
    show List.insertionSort newerFirst ((db.rows ++ [A]) ++ [B]) = B :: A :: rest
    rw [ht, hrest]

theorem list_newest_first_witness :
    ∃ a2 b2 rest,
      (some (⟨1, "A", "a", none, none, none, none, 10, 10⟩ : Book)) = some a2 ∧
      (some (⟨2, "B", "b", none, none, none, none, 20, 20⟩ : Book)) = some b2 ∧
      getAllBooks ⟨[⟨1, "A", "a", none, none, none, none, 10, 10⟩,
                    ⟨2, "B", "b", none, none, none, none, 20, 20⟩], 3⟩ = b2 :: a2 :: rest :=
  (list_newest_first ⟨[], 1⟩).2.2.2 10 20
    ⟨"A", "a", none, none, none, none⟩ ⟨"B", "b", none, none, none, none⟩
    (some ⟨1, "A", "a", none, none, none, none, 10, 10⟩)
    ⟨[⟨1, "A", "a", none, none, none, none, 10, 10⟩], 2⟩
    (some ⟨2, "B", "b", none, none, none, none, 20, 20⟩)
    ⟨[⟨1, "A", "a", none, none, none, none, 10, 10⟩,
      ⟨2, "B", "b", none, none, none, none, 20, 20⟩], 3⟩
    (by decide) (by decide) (by decide) rfl rfl

end BookApi
